import Mathlib

/-!
# Event-driven image processing pipeline — verification of the spec's claims

Shallow embedding of the job-execution pipeline of the repository
`event-driven-image-processing`:

* `pkg/types` (job / operation / result records and the status, operation
  and format string constants),
* `pkg/processor/image.go` (`ProcessJob`, `downloadImage`,
  `downloadFromHTTP`, `downloadFromStorage`, `processOperation`,
  `applyOperation`, `addWatermark`, `uploadResult`),
* the per-message body of the worker loop in `services/worker/main.go`
  (decode → mark `in_progress` → `ProcessJob` → terminal save), and
* the admission handler `handleCreateJob` of `services/api/main.go`.

External effects (HTTP fetch, object-store get/put, the `uuid` token
source) are modelled by an explicit environment `Env`; the object-store
writes performed by a run are collected into a list of `Upload` records,
and the wall-clock is an explicit `now : Nat` parameter.  Pixel-level
decoding/resampling is a black box: a decoded image is modelled by its
bounds (`Raster`), which is all the code under verification inspects
(`bounds.Dx()`, `bounds.Dy()`), and the external imaging library's
dimension arithmetic is transcribed in `imagingResize`.
-/

/-- A decoded in-memory image (`image.Image`), abstracted to its bounds:
the processor code only ever reads `Bounds().Dx()` / `Bounds().Dy()` of a
raster, and the imaging library's resize is characterised by the output
dimensions. -/
structure Raster where
  width : Nat
  height : Nat
deriving Repr, DecidableEq

/-- `types.ImageOperation` (pkg/types). Go `int` fields are `Int` (they may
be negative in a request); string fields are `String`. -/
structure ImageOperation where
  type : String
  width : Int
  height : Int
  format : String
  quality : Int
  watermark : String
  outputKey : String
deriving Repr, DecidableEq

/-- `types.ProcessedImage` (pkg/types). `size` is Go `int64`;
`processingTime` (a wall-clock duration) is not modelled. `width` and
`height` come from `Bounds().Dx()/Dy()` and so are `Nat` here. -/
structure ProcessedImage where
  operation : ImageOperation
  outputURL : String
  outputKey : String
  size : Int
  width : Nat
  height : Nat
  format : String
deriving Repr, DecidableEq

/-- `types.Job` (pkg/types). `createdAt`/`completedAt` are abstract
timestamps. -/
structure Job where
  id : String
  status : String
  imageURL : String
  operations : List ImageOperation
  createdAt : Nat
  completedAt : Option Nat
  results : List ProcessedImage
  error : String
deriving Repr, DecidableEq

/-- `types.StatusPending` -/
def StatusPending : String := "pending"
/-- `types.StatusInProgress` -/
def StatusInProgress : String := "in_progress"
/-- `types.StatusCompleted` -/
def StatusCompleted : String := "completed"
/-- `types.StatusFailed` -/
def StatusFailed : String := "failed"

/-- `types.OpResize` -/
def OpResize : String := "resize"
/-- `types.OpFormat` -/
def OpFormat : String := "format"
/-- `types.OpWatermark` -/
def OpWatermark : String := "watermark"

/-- `types.FormatJPEG` -/
def FormatJPEG : String := "jpeg"
/-- `types.FormatPNG` -/
def FormatPNG : String := "png"
/-- `types.FormatWebP` -/
def FormatWebP : String := "webp"

/-- The spec's glossary notion of a terminal state: Completed or Failed. -/
def isTerminalStatus (s : String) : Bool :=
  s == StatusCompleted || s == StatusFailed

/-- Outcome of decoding a body of bytes with `imaging.Decode`. -/
inductive DecodeOutcome where
  | ok (img : Raster)
  | fail (msg : String)
deriving Repr, DecidableEq

/-- Outcome of `http.DefaultClient.Do` on a GET of a source URL: a
transport-level error, or a response with a status code and a body. -/
inductive HTTPOutcome where
  | netError (msg : String)
  | response (status : Nat) (body : DecodeOutcome)
deriving Repr, DecidableEq

/-- Outcome of `minioClient.GetObject` + decode for an object-store key. -/
inductive StorageOutcome where
  | getError (msg : String)
  | content (body : DecodeOutcome)
deriving Repr, DecidableEq

/-- The external world the processor interacts with: HTTP responses per
URL, object-store contents per key, the object-store put outcome per
object key (`none` = success, `some msg` = error), and the stream of
random tokens produced by successive `uuid.New().String()[:8]` calls. -/
structure Env where
  http : String → HTTPOutcome
  storage : String → StorageOutcome
  uploadErr : String → Option String
  token : Nat → String

/-- One `PutObject` call that succeeded: the object key written, the
content-type metadata, and the encoded payload. -/
inductive EncodedImage where
  | jpegData (img : Raster) (quality : Int)
  | pngData (img : Raster)
deriving Repr, DecidableEq

structure Upload where
  objectKey : String
  contentType : String
  data : EncodedImage
deriving Repr, DecidableEq

/-- `downloadFromHTTP` (image.go:80-102): transport failure and non-200
status are errors; otherwise the body is decoded. -/
def downloadFromHTTP (env : Env) (url : String) : Except String Raster :=
  match env.http url with
  | .netError m => .error ("failed to download image: " ++ m)
  | .response status body =>
    if status ≠ 200 then .error ("HTTP error: " ++ toString status)
    else
      match body with
      | .ok img => .ok img
      | .fail m => .error ("failed to decode image: " ++ m)

/-- `downloadFromStorage` (image.go:105-118). -/
def downloadFromStorage (env : Env) (objectKey : String) : Except String Raster :=
  match env.storage objectKey with
  | .getError m => .error ("failed to get object from storage: " ++ m)
  | .content (.ok img) => .ok img
  | .content (.fail m) => .error ("failed to decode image: " ++ m)

/-- Helper for `goStartsWith`: character-by-character comparison. -/
def startsWithChars : List Char → List Char → Bool
  | _, [] => true
  | [], _ :: _ => false
  | c :: cs, p :: ps => c == p && startsWithChars cs ps

/-- Go's `strings.HasPrefix`, stated on the decoded character sequence of
the two strings. -/
def goStartsWith (s pat : String) : Bool :=
  startsWithChars s.data pat.data

/-- `downloadImage` (image.go:70-77): URL-scheme dispatch. -/
def downloadImage (env : Env) (imageURL : String) : Except String Raster :=
  if goStartsWith imageURL "http://" || goStartsWith imageURL "https://" then
    downloadFromHTTP env imageURL
  else
    downloadFromStorage env imageURL

/-- Dimension behaviour of the external `imaging.Resize` (black-box
capability per the spec): both dimensions positive → exactly those
dimensions; exactly one positive → the other is recovered from the source
aspect ratio, rounded half-up and at least 1; both zero → the empty
image. -/
def imagingResize (img : Raster) (w h : Nat) : Raster :=
  if 0 < w ∧ 0 < h then ⟨w, h⟩
  else if 0 < w then ⟨w, max 1 ((2 * w * img.height + img.width) / (2 * img.width))⟩
  else if 0 < h then ⟨max 1 ((2 * h * img.width + img.height) / (2 * img.height)), h⟩
  else ⟨0, 0⟩

/-- `addWatermark` (image.go:182-187): explicitly a stub — returns the
original image unchanged. -/
def addWatermark (img : Raster) (_text : String) : Raster :=
  img

/-- `applyOperation` (image.go:158-179). In the source this returns
`(image.Image, error)` but no branch ever produces a non-nil error, so it
is total here. The resize branch only fires for `type == resize` with a
positive width or height; the watermark branch is the identity stub. -/
def applyOperation (img : Raster) (op : ImageOperation) : Raster :=
  let result := img
  let result :=
    if op.type = OpResize ∧ (0 < op.width ∨ 0 < op.height) then
      if 0 < op.width ∧ 0 < op.height then
        imagingResize result op.width.toNat op.height.toNat
      else if 0 < op.width then
        imagingResize result op.width.toNat 0
      else
        imagingResize result 0 op.height.toNat
    else result
  let result :=
    if op.type = OpWatermark ∧ op.watermark ≠ "" then
      addWatermark result op.watermark
    else result
  result

/-- The encode step of `uploadResult` (image.go:195-211): JPEG with the
0→90 quality default; PNG; WebP falls back to JPEG at quality 90; unknown
formats default to JPEG at quality 90. Encoding into an in-memory buffer
does not fail on a decoded raster, so this is total. -/
def encodeImage (img : Raster) (format : String) (quality : Int) : EncodedImage :=
  if format = FormatJPEG then
    .jpegData img (if quality = 0 then 90 else quality)
  else if format = FormatPNG then
    .pngData img
  else if format = FormatWebP then
    .jpegData img 90
  else
    .jpegData img 90

/-- The file-extension rule of `uploadResult` (image.go:218-221):
`ext := "." + format`, rewritten to `.jpg` when it comes out `.jpeg`. -/
def fileExt (format : String) : String :=
  let ext := "." ++ format
  if ext = ".jpeg" then ".jpg" else ext

/-- `uploadResult` (image.go:190-234): encode, append the extension to the
operation's output key, `PutObject` under that key with content-type
`image/<format>`, and return the object key. On success the performed
upload is also returned so theorems can speak about the stored object. -/
def uploadResult (env : Env) (img : Raster) (op : ImageOperation) :
    Except String (String × Upload) :=
  let enc := encodeImage img op.format op.quality
  let ext := fileExt op.format
  let objectKey := op.outputKey ++ ext
  match env.uploadErr objectKey with
  | some m => .error ("failed to upload to storage: " ++ m)
  | none =>
    .ok (objectKey, { objectKey := objectKey
                      contentType := "image/" ++ op.format
                      data := enc })

/-- The output-key generation step of `processOperation` (image.go:130-133):
an empty output key is replaced by one derived from the job id, the
operation type and a fresh random token; `ctr` indexes the token stream
and advances exactly when a token is drawn. -/
def deriveOutputKey (env : Env) (op : ImageOperation) (jobID : String)
    (ctr : Nat) : ImageOperation × Nat :=
  if op.outputKey = "" then
    ({ op with outputKey :=
         "processed/" ++ jobID ++ "/" ++ op.type ++ "_" ++ env.token ctr },
     ctr + 1)
  else (op, ctr)

/-- `processOperation` (image.go:121-155): apply the operation (which in
the source never returns an error, so the `failed to apply operation`
branch is unreachable), fill an empty output key, upload, and build the
`ProcessedImage`. The `size` field is never assigned in the source, so it
stays at Go's zero value. Returns the result-or-error, the uploads
performed, and the advanced token counter. -/
def processOperation (env : Env) (img : Raster) (op : ImageOperation)
    (jobID : String) (ctr : Nat) :
    Except String ProcessedImage × List Upload × Nat :=
  let processedImg := applyOperation img op
  let p := deriveOutputKey env op jobID ctr
  match uploadResult env processedImg p.1 with
  | .error e => (.error ("failed to upload result: " ++ e), [], p.2)
  | .ok (outputURL, up) =>
    (.ok { operation := p.1
           outputURL := outputURL
           outputKey := p.1.outputKey
           size := 0
           width := processedImg.width
           height := processedImg.height
           format := p.1.format },
     [up], p.2)

/-- The operation loop of `ProcessJob` (image.go:47-55): each operation is
invoked against `img` — the raster produced by the source download — a
failed operation is logged and skipped, and successes are appended in list
order. -/
def processOps (env : Env) (img : Raster) (jobID : String) :
    List ImageOperation → Nat → List ProcessedImage × List Upload × Nat
  | [], ctr => ([], [], ctr)
  | op :: rest, ctr =>
    match processOperation env img op jobID ctr with
    | (.error _, ups, ctr') =>
      let q := processOps env img jobID rest ctr'
      (q.1, ups ++ q.2.1, q.2.2)
    | (.ok r, ups, ctr') =>
      let q := processOps env img jobID rest ctr'
      (r :: q.1, ups ++ q.2.1, q.2.2)

/-- `ProcessJob` (image.go:37-67): download the source (failure aborts the
job with a wrapped error and no operation attempted), run every operation,
then set the results, mark the job `completed` and stamp the completion
time. -/
def ProcessJob (env : Env) (job : Job) (now : Nat) :
    Except String (Job × List Upload) :=
  match downloadImage env job.imageURL with
  | .error e => .error ("failed to download image: " ++ e)
  | .ok img =>
    let r := processOps env img job.id job.operations 0
    .ok ({ job with results := r.1
                    status := StatusCompleted
                    completedAt := some now },
         r.2.1)

/-- The per-message body of the worker loop (services/worker/main.go:100-125)
for a successfully decoded job message: set `in_progress` and save; run
`ProcessJob`; on error set `failed`, attach the error text and save,
otherwise save the completed job. Returns the sequence of status-store
writes (`saveJob` calls), in order, together with the object-store uploads
performed. -/
def handleMessage (env : Env) (job : Job) (now : Nat) : List Job × List Upload :=
  let job1 := { job with status := StatusInProgress }
  match ProcessJob env job1 now with
  | .error e =>
    ([job1, { job1 with status := StatusFailed, error := e }], [])
  | .ok (job2, ups) =>
    ([job1, job2], ups)

/-- The default operation inserted by the admission handler when the
request carries no operations (services/api/main.go:98-110): resize to
800×600, JPEG, quality 90. The `Watermark` field is not set in the Go
composite literal, so it is the empty string. -/
def defaultResizeOperation : ImageOperation :=
  { type := OpResize
    width := 800
    height := 600
    format := FormatJPEG
    quality := 90
    watermark := ""
    outputKey := "" }

/-- The decoded body of a POST /jobs admission request
(services/api/main.go:82-85). -/
structure CreateJobRequest where
  imageURL : String
  operations : List ImageOperation
deriving Repr, DecidableEq

/-- Outcome of `handleCreateJob` for a well-formed POST whose body decoded:
either a 400 with a message, or the created job envelope returned with the
response. -/
inductive CreateJobResponse where
  | badRequest (msg : String)
  | created (job : Job)
deriving Repr, DecidableEq

/-- `handleCreateJob` (services/api/main.go:75-152), after the method check
and JSON decoding: reject an empty `image_url`; default the operations when
none are given; build the job with a fresh id, status `pending` and the
creation time; persist and enqueue it; and respond with the job. The
persistence/publish failure branches (infrastructure errors) are not
modelled. -/
def handleCreateJob (req : CreateJobRequest) (jobID : String) (now : Nat) :
    CreateJobResponse :=
  if req.imageURL = "" then .badRequest "image_url is required"
  else
    let ops :=
      if req.operations = [] then [defaultResizeOperation] else req.operations
    .created { id := jobID
               status := StatusPending
               imageURL := req.imageURL
               operations := ops
               createdAt := now
               completedAt := none
               results := []
               error := "" }

/-- The spec's reading of the operation loop (§4.3): "Operations apply
cumulatively in list order against the evolving raster (each operation's
output becomes the next operation's input)". Written from the spec's words
for comparison with `processOps`, which is the source's behaviour; a
failed operation is skipped and leaves the evolving raster unchanged. -/
def specCumulativeResults (env : Env) (jobID : String) :
    Raster → List ImageOperation → Nat → List ProcessedImage
  | _, [], _ => []
  | img, op :: rest, ctr =>
    match processOperation env img op jobID ctr with
    | (.error _, _, ctr') => specCumulativeResults env jobID img rest ctr'
    | (.ok r, _, ctr') =>
      r :: specCumulativeResults env jobID (applyOperation img op) rest ctr'

/-! ## Concrete instances

Environments, operations and jobs used to evaluate the pipeline at
concrete inputs (for witnesses and counterexamples). -/

/-- A healthy world: every URL answers 200 with a decodable 400×200 image,
every storage key holds a decodable 400×200 image, every upload succeeds,
and the token stream is `t0`, `t1`, …. -/
def envAllOk : Env :=
  { http := fun _ => .response 200 (.ok ⟨400, 200⟩)
    storage := fun _ => .content (.ok ⟨400, 200⟩)
    uploadErr := fun _ => none
    token := fun n => "t" ++ toString n }

/-- A world whose HTTP server answers 404 to every request. -/
def env404 : Env :=
  { http := fun _ => .response 404 (.fail "short body")
    storage := fun _ => .content (.ok ⟨400, 200⟩)
    uploadErr := fun _ => none
    token := fun n => "t" ++ toString n }

/-- A world where the object-store put of the key `second.png` fails and
everything else is healthy. -/
def envSecondUploadFails : Env :=
  { http := fun _ => .response 200 (.ok ⟨400, 200⟩)
    storage := fun _ => .content (.ok ⟨400, 200⟩)
    uploadErr := fun key => if key = "second.png" then some "connection reset" else none
    token := fun n => "t" ++ toString n }

/-- Resize to exactly 100×100, PNG output, explicit key `first`. -/
def resizeBothOp : ImageOperation :=
  { type := OpResize, width := 100, height := 100, format := FormatPNG
    quality := 0, watermark := "", outputKey := "first" }

/-- Resize to width 50, height unconstrained, PNG output, explicit key
`second`. -/
def resizeWidthOnlyOp : ImageOperation :=
  { type := OpResize, width := 50, height := 0, format := FormatPNG
    quality := 0, watermark := "", outputKey := "second" }

/-- A resize whose parameters are invalid: negative target dimensions. -/
def invalidResizeOp : ImageOperation :=
  { type := OpResize, width := -5, height := -5, format := FormatJPEG
    quality := 80, watermark := "", outputKey := "second" }

/-- A format conversion with a non-empty explicit output key. -/
def explicitKeyOp : ImageOperation :=
  { type := OpFormat, width := 0, height := 0, format := FormatPNG
    quality := 0, watermark := "", outputKey := "custom/key" }

/-- A format conversion with an empty output key (key gets derived). -/
def emptyKeyOp : ImageOperation :=
  { type := OpFormat, width := 0, height := 0, format := FormatPNG
    quality := 0, watermark := "", outputKey := "" }

/-- A freshly admitted job (status `pending`, HTTP source, no results)
carrying the given operations. -/
def sampleJob (ops : List ImageOperation) : Job :=
  { id := "job-1", status := StatusPending
    imageURL := "http://example.com/cat.png", operations := ops
    createdAt := 0, completedAt := none, results := [], error := "" }

/-! ## Helper lemmas -/

lemma applyOperation_outputKey (img : Raster) (op : ImageOperation) (k : String) :
    applyOperation img { op with outputKey := k } = applyOperation img op := rfl

lemma deriveOutputKey_eq_update (env : Env) (op : ImageOperation)
    (jobID : String) (ctr : Nat) :
    ∃ k, (deriveOutputKey env op jobID ctr).1 = { op with outputKey := k } := by
  unfold deriveOutputKey
  split
  · exact ⟨_, rfl⟩
  · exact ⟨op.outputKey, rfl⟩

lemma deriveOutputKey_apply (env : Env) (img : Raster) (op : ImageOperation)
    (jobID : String) (ctr : Nat) :
    applyOperation img (deriveOutputKey env op jobID ctr).1 = applyOperation img op := by
  obtain ⟨k, hk⟩ := deriveOutputKey_eq_update env op jobID ctr
  rw [hk, applyOperation_outputKey]

/-- Characterisation of a successful `processOperation`: the fields of the
produced `ProcessedImage` and the single upload performed. -/
lemma processOperation_ok_fields {env : Env} {img : Raster} {op : ImageOperation}
    {jobID : String} {ctr : Nat} {r : ProcessedImage} {ups : List Upload} {ctr' : Nat}
    (h : processOperation env img op jobID ctr = (.ok r, ups, ctr')) :
    r.width = (applyOperation img op).width ∧
    r.height = (applyOperation img op).height ∧
    r.format = op.format ∧
    r.operation = (deriveOutputKey env op jobID ctr).1 ∧
    r.outputKey = (deriveOutputKey env op jobID ctr).1.outputKey ∧
    r.outputURL = r.outputKey ++ fileExt op.format ∧
    ups = [{ objectKey := r.outputURL
             contentType := "image/" ++ op.format
             data := encodeImage (applyOperation img op) op.format op.quality }] := by
  obtain ⟨k, hk⟩ := deriveOutputKey_eq_update env op jobID ctr
  unfold processOperation uploadResult at h
  simp only at h
  rw [hk] at h
  simp only at h
  rw [hk]
  cases hu : env.uploadErr (k ++ fileExt op.format) with
  | some m => rw [hu] at h; simp at h
  | none =>
    rw [hu] at h
    simp only [Prod.mk.injEq, Except.ok.injEq] at h
    obtain ⟨hr, hups, -⟩ := h
    subst hr hups
    simp

/-- A failed `processOperation` performs no upload. -/
lemma processOperation_error_uploads {env : Env} {img : Raster} {op : ImageOperation}
    {jobID : String} {ctr : Nat} {e : String} {ups : List Upload} {ctr' : Nat}
    (h : processOperation env img op jobID ctr = (.error e, ups, ctr')) :
    ups = [] := by
  unfold processOperation at h
  simp only at h
  cases hu : uploadResult env (applyOperation img op)
      (deriveOutputKey env op jobID ctr).1 with
  | error m => rw [hu] at h; simp only [Prod.mk.injEq] at h; exact h.2.1.symm
  | ok p => rw [hu] at h; simp at h

/-- At most one result per operation: the operation loop never produces
more results than operations. -/
lemma processOps_length_le (env : Env) (img : Raster) (jobID : String) :
    ∀ (ops : List ImageOperation) (ctr : Nat),
      ((processOps env img jobID ops ctr).1).length ≤ ops.length
  | [], _ => by simp [processOps]
  | op :: rest, ctr => by
    rw [processOps]
    cases hpo : processOperation env img op jobID ctr with
    | mk exc pr =>
      obtain ⟨ups0, ctr0⟩ := pr
      cases exc with
      | error e =>
        simpa using Nat.le_succ_of_le (processOps_length_le env img jobID rest ctr0)
      | ok r =>
        simpa using processOps_length_le env img jobID rest ctr0

/-- Characterisation of a successful `ProcessJob`: the source downloaded,
and the job is returned with accumulated results, status `completed` and a
stamped completion time. -/
lemma ProcessJob_ok {env : Env} {job : Job} {now : Nat} {j : Job} {ups : List Upload}
    (h : ProcessJob env job now = .ok (j, ups)) :
    ∃ img, downloadImage env job.imageURL = .ok img ∧
      j = { job with results := (processOps env img job.id job.operations 0).1
                     status := StatusCompleted
                     completedAt := some now } ∧
      ups = (processOps env img job.id job.operations 0).2.1 := by
  unfold ProcessJob at h
  cases hd : downloadImage env job.imageURL with
  | error e => rw [hd] at h; simp at h
  | ok img =>
    rw [hd] at h
    simp only [Except.ok.injEq, Prod.mk.injEq] at h
    exact ⟨img, rfl, h.1.symm, h.2.symm⟩

/-- A string with a non-empty left part is non-empty. -/
lemma append_ne_empty_left {a : String} (b : String) (ha : 0 < a.length) :
    a ++ b ≠ "" := by
  intro h
  have hlen := congrArg String.length h
  rw [String.length_append, String.length_empty] at hlen
  omega

/-- A string strictly grows when a non-empty string is appended. -/
lemma self_ne_append_right {s t : String} (ht : 0 < t.length) : s ≠ s ++ t := by
  intro h
  have hlen := congrArg String.length h
  rw [String.length_append] at hlen
  omega

lemma fileExt_length_pos (format : String) : 0 < (fileExt format).length := by
  simp only [fileExt]
  split
  · decide
  · rw [String.length_append]
    have : (".").length = 1 := by decide
    omega

lemma fileExt_jpeg : fileExt FormatJPEG = ".jpg" := by decide

/-- For any format other than `jpeg` the extension is a dot followed by the
format name. -/
lemma fileExt_of_ne_jpeg {format : String} (h : format ≠ FormatJPEG) :
    fileExt format = "." ++ format := by
  simp only [fileExt]
  rw [if_neg]
  intro hc
  apply h
  have : ("." : String) ++ format = "." ++ FormatJPEG := by
    rw [hc]; rfl
  have hd := congrArg String.data this
  rw [String.data_append, String.data_append] at hd
  exact String.ext (List.append_cancel_left hd)

/-! ## Claims -/

/-- C1 (counterexample): the claim says the raster given to operation `i+1`
is the output raster of operation `i` — i.e. the loop computes what
`specCumulativeResults` (the spec's cumulative reading) computes. On a
400×200 source with a first operation resizing to 100×100 and a second
operation resizing to width 50 preserving aspect ratio, the source's loop
records a 50×25 second result (aspect of the ORIGINAL 400×200 raster,
because `ProcessJob` passes the downloaded `img` to every operation),
whereas the cumulative reading would record 50×50 (aspect of the first
operation's 100×100 output). -/
theorem c1_counterexample :
    (processOps envAllOk ⟨400, 200⟩ "job-1" [resizeBothOp, resizeWidthOnlyOp] 0).1 ≠
      specCumulativeResults envAllOk "job-1" ⟨400, 200⟩
        [resizeBothOp, resizeWidthOnlyOp] 0 := by
  decide

/-- C1 (amended): operations are NOT applied cumulatively; `ProcessJob`
hands every operation the raster produced by the source download, so each
recorded result carries the dimensions of its own operation applied to the
original source raster, independent of all preceding operations. -/
theorem c1_each_operation_sees_source_raster
    (env : Env) (img : Raster) (jobID : String) (ops : List ImageOperation)
    (ctr : Nat) (r : ProcessedImage)
    (hr : r ∈ (processOps env img jobID ops ctr).1) :
    r.width = (applyOperation img r.operation).width ∧
    r.height = (applyOperation img r.operation).height := by
  induction ops generalizing ctr with
  | nil => simp [processOps] at hr
  | cons op rest ih =>
    rw [processOps] at hr
    cases hpo : processOperation env img op jobID ctr with
    | mk exc pr =>
      obtain ⟨ups0, ctr0⟩ := pr
      rw [hpo] at hr
      cases exc with
      | error e =>
        simp only at hr
        exact ih ctr0 hr
      | ok r0 =>
        simp only [List.mem_cons] at hr
        cases hr with
        | inl hr0 =>
          subst hr0
          obtain ⟨hw, hh, -, hop, -⟩ := processOperation_ok_fields hpo
          rw [hw, hh, hop, deriveOutputKey_apply]
          exact ⟨rfl, rfl⟩
        | inr hr' => exact ih ctr0 hr'

/-- Witness for `c1_each_operation_sees_source_raster` at a concrete run:
a single 100×100 resize of a 400×200 source. -/
theorem c1_witness :
    ({ operation := resizeBothOp, outputURL := "first.png", outputKey := "first"
       size := 0, width := 100, height := 100, format := "png" } : ProcessedImage).width =
        (applyOperation ⟨400, 200⟩
          ({ operation := resizeBothOp, outputURL := "first.png", outputKey := "first"
             size := 0, width := 100, height := 100,
             format := "png" } : ProcessedImage).operation).width ∧
    ({ operation := resizeBothOp, outputURL := "first.png", outputKey := "first"
       size := 0, width := 100, height := 100, format := "png" } : ProcessedImage).height =
        (applyOperation ⟨400, 200⟩
          ({ operation := resizeBothOp, outputURL := "first.png", outputKey := "first"
             size := 0, width := 100, height := 100,
             format := "png" } : ProcessedImage).operation).height :=
  c1_each_operation_sees_source_raster envAllOk ⟨400, 200⟩ "job-1" [resizeBothOp] 0 _
    (by decide)

/-- C2 (counterexample): the claim says an already-terminal stored record
is never overwritten with a non-terminal status. But the worker never
reads the status store before processing a delivery: processing the
message of `sampleJob [resizeBothOp]` ends with a persisted `completed`
(terminal) record, and processing a re-delivery of that very same message
FIRST persists an `in_progress` (non-terminal) record over it —
`saveJob` after the `job.Status = types.StatusInProgress` assignment
(worker/main.go:110-111) — so the stored record does revert from a
terminal state. -/
theorem c2_counterexample :
    ((handleMessage envAllOk (sampleJob [resizeBothOp]) 5).1.map Job.status) =
        [StatusInProgress, StatusCompleted] ∧
    ((handleMessage envAllOk (sampleJob [resizeBothOp]) 9).1.map Job.status) =
        [StatusInProgress, StatusCompleted] ∧
    isTerminalStatus StatusCompleted = true ∧
    isTerminalStatus StatusInProgress = false := by
  refine ⟨by decide, by decide, by decide, by decide⟩

/-- C2 (amended): WITHIN one delivery the status writes are monotonic —
the worker persists exactly two records, first `in_progress`, then exactly
one terminal status, and nothing after the terminal write. Across
deliveries, however, re-delivery of an already-completed job's message
repeats this pair of writes, so the stored record transiently reverts
from `completed` to `in_progress` before becoming terminal again. -/
theorem c2_writes_are_in_progress_then_terminal
    (env : Env) (job : Job) (now : Nat) :
    ∃ t, ((handleMessage env job now).1.map Job.status) = [StatusInProgress, t] ∧
      isTerminalStatus t = true := by
  simp only [handleMessage]
  cases h : ProcessJob env { job with status := StatusInProgress } now with
  | error e =>
    exact ⟨StatusFailed, by simp, by decide⟩
  | ok p =>
    obtain ⟨j2, ups⟩ := p
    obtain ⟨img, -, hj, -⟩ := ProcessJob_ok h
    refine ⟨StatusCompleted, ?_, by decide⟩
    subst hj
    simp

/-- C3: for every job record the worker persists in a terminal state
(starting from an admitted message, whose results list is empty), the
results list is never longer than the operations list: a failed job keeps
its empty results, and a completed job's results come from the operation
loop, which produces at most one result per operation. -/
theorem c3_results_no_longer_than_operations
    (env : Env) (job : Job) (now : Nat) (w : Job)
    (hres : job.results = [])
    (hw : w ∈ (handleMessage env job now).1)
    (hterm : isTerminalStatus w.status = true) :
    w.results.length ≤ w.operations.length := by
  simp only [handleMessage] at hw
  cases h : ProcessJob env { job with status := StatusInProgress } now with
  | error e =>
    rw [h] at hw
    simp only [List.mem_cons, List.not_mem_nil, or_false] at hw
    rcases hw with rfl | rfl <;> simp [hres]
  | ok p =>
    obtain ⟨j2, ups⟩ := p
    rw [h] at hw
    obtain ⟨img, -, hj, -⟩ := ProcessJob_ok h
    simp only [List.mem_cons, List.not_mem_nil, or_false] at hw
    rcases hw with rfl | rfl
    · simp [hres]
    · subst hj
      simpa using processOps_length_le env img job.id job.operations 0

/-- Witness for `c3_results_no_longer_than_operations`: the terminal record
persisted for a job whose HTTP source answers 404. -/
theorem c3_witness :
    ({ id := "job-1", status := StatusFailed
       imageURL := "http://example.com/cat.png", operations := []
       createdAt := 0, completedAt := none, results := []
       error := "failed to download image: HTTP error: 404" } : Job).results.length ≤
      ({ id := "job-1", status := StatusFailed
         imageURL := "http://example.com/cat.png", operations := []
         createdAt := 0, completedAt := none, results := []
         error := "failed to download image: HTTP error: 404" } : Job).operations.length :=
  c3_results_no_longer_than_operations env404 (sampleJob []) 0 _ rfl (by decide) (by decide)

/-- C4 (counterexample): the claim expects a job whose second operation has
invalid parameters (here: a resize to −5×−5) to complete with exactly ONE
result. But the source validates no parameters: `applyOperation` simply
skips the resize when neither dimension is positive (image.go:162) and the
operation still encodes and uploads the unchanged raster, so the job
completes with TWO results, not one. -/
theorem c4_counterexample :
    ((ProcessJob envAllOk (sampleJob [resizeBothOp, invalidResizeOp]) 5).toOption.map
        (fun p => (p.1.status, p.1.results.length))) = some (StatusCompleted, 2) ∧
      (2 : Nat) ≠ 1 := by
  exact ⟨by decide, by decide⟩

/-- C4 (amended): an operation is dropped from the results only when its
upload (or encode) step fails, not when its parameters are invalid —
invalid parameters make the operation a successful pass-through. For a job
with two operations whose source downloads fine, where the first operation
succeeds and the SECOND FAILS (e.g. its upload errors), `ProcessJob`
yields a completed job with exactly one result, the first operation's. -/
theorem c4_failed_second_operation_keeps_first_result
    (env : Env) (job : Job) (now : Nat) (img : Raster)
    (op1 op2 : ImageOperation) (r1 : ProcessedImage)
    (ups1 : List Upload) (k1 : Nat) (e : String) (ups2 : List Upload) (k2 : Nat)
    (hops : job.operations = [op1, op2])
    (hdl : downloadImage env job.imageURL = .ok img)
    (h1 : processOperation env img op1 job.id 0 = (.ok r1, ups1, k1))
    (h2 : processOperation env img op2 job.id k1 = (.error e, ups2, k2)) :
    ProcessJob env job now =
      .ok ({ job with results := [r1], status := StatusCompleted
                      completedAt := some now }, ups1) := by
  have hups2 : ups2 = [] := processOperation_error_uploads h2
  subst hups2
  unfold ProcessJob
  rw [hdl]
  simp only [hops]
  simp [processOps, h1, h2]

/-- Witness for `c4_failed_second_operation_keeps_first_result`: the upload
of the second operation's object `second.png` fails, the job completes
with just the first operation's result. -/
theorem c4_witness :
    ProcessJob envSecondUploadFails (sampleJob [resizeBothOp, resizeWidthOnlyOp]) 5 =
      .ok ({ sampleJob [resizeBothOp, resizeWidthOnlyOp] with
             results := [{ operation := resizeBothOp, outputURL := "first.png"
                           outputKey := "first", size := 0, width := 100, height := 100
                           format := "png" }]
             status := StatusCompleted, completedAt := some 5 },
           [{ objectKey := "first.png", contentType := "image/png"
              data := .pngData ⟨100, 100⟩ }]) :=
  c4_failed_second_operation_keeps_first_result
    envSecondUploadFails (sampleJob [resizeBothOp, resizeWidthOnlyOp]) 5 ⟨400, 200⟩
    resizeBothOp resizeWidthOnlyOp
    { operation := resizeBothOp, outputURL := "first.png", outputKey := "first"
      size := 0, width := 100, height := 100, format := "png" }
    [{ objectKey := "first.png", contentType := "image/png"
       data := .pngData ⟨100, 100⟩ }]
    0 "failed to upload result: failed to upload to storage: connection reset" [] 0
    rfl rfl rfl rfl

/-- C5: a job whose HTTP source answers a non-success status produces
exactly two persisted writes — `in_progress`, then `failed` with the
non-empty wrapped error text — the stored record keeps its empty results
list, and no object-store upload happens (no operation is attempted: the
download failure aborts `ProcessJob` before the operation loop). -/
theorem c5_http_error_fails_job_without_operations
    (env : Env) (job : Job) (now : Nat) (code : Nat) (body : DecodeOutcome)
    (hscheme : goStartsWith job.imageURL "http://" = true ∨
               goStartsWith job.imageURL "https://" = true)
    (hhttp : env.http job.imageURL = .response code body)
    (hcode : code ≠ 200)
    (hres : job.results = []) :
    handleMessage env job now =
      ([{ job with status := StatusInProgress },
        { job with status := StatusFailed,
                   error := "failed to download image: " ++
                     ("HTTP error: " ++ toString code) }],
       []) ∧
    ("failed to download image: " ++ ("HTTP error: " ++ toString code)) ≠ "" ∧
    ({ job with status := StatusFailed,
                error := "failed to download image: " ++
                  ("HTTP error: " ++ toString code) } : Job).results = [] := by
  have hsch : (goStartsWith job.imageURL "http://" ||
      goStartsWith job.imageURL "https://") = true := by
    rcases hscheme with h | h <;> simp [h]
  refine ⟨?_, append_ne_empty_left _ (by decide), by simp [hres]⟩
  simp only [handleMessage, ProcessJob, downloadImage, downloadFromHTTP]
  simp [hsch, hhttp, hcode]

/-- Witness for `c5_http_error_fails_job_without_operations`: the 404
world and a freshly admitted job with no operations. -/
theorem c5_witness :
    handleMessage env404 (sampleJob []) 0 =
      ([{ sampleJob [] with status := StatusInProgress },
        { sampleJob [] with status := StatusFailed,
                            error := "failed to download image: " ++
                              ("HTTP error: " ++ toString (404 : Nat)) }],
       []) ∧
    ("failed to download image: " ++ ("HTTP error: " ++ toString (404 : Nat))) ≠ "" ∧
    ({ sampleJob [] with status := StatusFailed,
                         error := "failed to download image: " ++
                           ("HTTP error: " ++ toString (404 : Nat)) } : Job).results = [] :=
  c5_http_error_fails_job_without_operations env404 (sampleJob []) 0 404
    (.fail "short body") (Or.inl (by decide)) rfl (by decide) rfl

/-- C6: for a JPEG or WebP target format with quality zero (Go's zero
value, i.e. unset), the encoding step effectively uses quality 90 — JPEG
via the explicit `quality == 0 → 90` default, WebP via the documented
fallback that encodes JPEG at quality 90. -/
theorem c6_zero_quality_encodes_at_90
    (img : Raster) (format : String) (quality : Int)
    (hfmt : format = FormatJPEG ∨ format = FormatWebP)
    (hq : quality = 0) :
    encodeImage img format quality = .jpegData img 90 := by
  subst hq
  rcases hfmt with rfl | rfl <;> rfl

/-- Witness for `c6_zero_quality_encodes_at_90` at format `jpeg`. -/
theorem c6_witness :
    encodeImage ⟨400, 200⟩ FormatJPEG 0 = .jpegData ⟨400, 200⟩ 90 :=
  c6_zero_quality_encodes_at_90 ⟨400, 200⟩ FormatJPEG 0 (Or.inl rfl) rfl

/-- C7 (counterexample): the claim says an explicit non-empty output key is
used "unmodified" as the stored object's key. But `uploadResult` appends
the format extension to the operation's output key before `PutObject`
(image.go:217-222): with explicit key `custom/key` and format `png` the
object is stored under `custom/key.png`, not under `custom/key`. -/
theorem c7_counterexample :
    ((processOperation envAllOk ⟨400, 200⟩ explicitKeyOp "job-1" 0).2.1.map
        Upload.objectKey) = ["custom/key.png"] ∧
      "custom/key.png" ≠ explicitKeyOp.outputKey := by
  exact ⟨by decide, by decide⟩

/-- C7 (amended): a non-empty explicit output key is used unmodified as
the BASE of the stored key — the recorded `output_key` is exactly the
explicit key — and an empty key gets the derived base
`processed/<job_id>/<operation_kind>_<token>`; in both cases the object is
stored under the base key with the canonical file extension appended. -/
theorem c7_output_key_base_and_stored_key
    (env : Env) (img : Raster) (op : ImageOperation) (jobID : String)
    (ctr : Nat) (r : ProcessedImage) (ups : List Upload) (ctr' : Nat)
    (h : processOperation env img op jobID ctr = (.ok r, ups, ctr')) :
    ups.map Upload.objectKey = [r.outputKey ++ fileExt op.format] ∧
    (op.outputKey ≠ "" → r.outputKey = op.outputKey) ∧
    (op.outputKey = "" →
      r.outputKey = "processed/" ++ jobID ++ "/" ++ op.type ++ "_" ++ env.token ctr) := by
  obtain ⟨-, -, -, -, hkey, hurl, hups⟩ := processOperation_ok_fields h
  refine ⟨?_, ?_, ?_⟩
  · rw [hups]
    simp [hurl]
  · intro hne
    rw [hkey]
    unfold deriveOutputKey
    rw [if_neg hne]
  · intro he
    rw [hkey]
    unfold deriveOutputKey
    rw [if_pos he]

/-- Witness for `c7_output_key_base_and_stored_key`: an operation with an
empty output key gets the derived base `processed/job-1/format_t0`, and
the object is stored under it with `.png` appended. -/
theorem c7_witness :
    ([{ objectKey := "processed/job-1/format_t0.png", contentType := "image/png"
        data := .pngData ⟨400, 200⟩ }] : List Upload).map Upload.objectKey =
        [({ operation := { emptyKeyOp with outputKey := "processed/job-1/format_t0" }
            outputURL := "processed/job-1/format_t0.png"
            outputKey := "processed/job-1/format_t0", size := 0
            width := 400, height := 200,
            format := "png" } : ProcessedImage).outputKey ++ fileExt emptyKeyOp.format] ∧
    (emptyKeyOp.outputKey ≠ "" →
      ({ operation := { emptyKeyOp with outputKey := "processed/job-1/format_t0" }
         outputURL := "processed/job-1/format_t0.png"
         outputKey := "processed/job-1/format_t0", size := 0
         width := 400, height := 200,
         format := "png" } : ProcessedImage).outputKey = emptyKeyOp.outputKey) ∧
    (emptyKeyOp.outputKey = "" →
      ({ operation := { emptyKeyOp with outputKey := "processed/job-1/format_t0" }
         outputURL := "processed/job-1/format_t0.png"
         outputKey := "processed/job-1/format_t0", size := 0
         width := 400, height := 200,
         format := "png" } : ProcessedImage).outputKey =
        "processed/" ++ "job-1" ++ "/" ++ emptyKeyOp.type ++ "_" ++ envAllOk.token 0) :=
  c7_output_key_base_and_stored_key envAllOk ⟨400, 200⟩ emptyKeyOp "job-1" 0 _ _ 1 rfl

/-- C8: on every successful upload, the stored object's key carries the
canonical extension — `.jpg` for format `jpeg`, `.<format>` for every
other format — and the content-type metadata is `image/<format>`. -/
theorem c8_extension_and_content_type
    (env : Env) (img : Raster) (op : ImageOperation) (url : String) (u : Upload)
    (h : uploadResult env img op = .ok (url, u)) :
    u.contentType = "image/" ++ op.format ∧
    (op.format = FormatJPEG → u.objectKey = op.outputKey ++ ".jpg") ∧
    (op.format ≠ FormatJPEG → u.objectKey = op.outputKey ++ ("." ++ op.format)) := by
  unfold uploadResult at h
  simp only at h
  cases hu : env.uploadErr (op.outputKey ++ fileExt op.format) with
  | some m => rw [hu] at h; simp at h
  | none =>
    rw [hu] at h
    simp only [Except.ok.injEq, Prod.mk.injEq] at h
    obtain ⟨-, hu2⟩ := h
    subst hu2
    refine ⟨rfl, ?_, ?_⟩
    · intro hj
      simp only [hj, fileExt_jpeg]
    · intro hj
      simp only [fileExt_of_ne_jpeg hj]

/-- Witness for `c8_extension_and_content_type` at a PNG upload with the
explicit key `custom/key`. -/
theorem c8_witness :
    ({ objectKey := "custom/key.png", contentType := "image/png"
       data := .pngData ⟨400, 200⟩ } : Upload).contentType =
        "image/" ++ explicitKeyOp.format ∧
    (explicitKeyOp.format = FormatJPEG →
      ({ objectKey := "custom/key.png", contentType := "image/png"
         data := .pngData ⟨400, 200⟩ } : Upload).objectKey =
        explicitKeyOp.outputKey ++ ".jpg") ∧
    (explicitKeyOp.format ≠ FormatJPEG →
      ({ objectKey := "custom/key.png", contentType := "image/png"
         data := .pngData ⟨400, 200⟩ } : Upload).objectKey =
        explicitKeyOp.outputKey ++ ("." ++ explicitKeyOp.format)) :=
  c8_extension_and_content_type envAllOk ⟨400, 200⟩ explicitKeyOp
    "custom/key.png" _ rfl

/-- C9: an admission request with a non-empty source reference and an
empty operations list creates a job with exactly the one default
operation — Resize to 800×600, format JPEG, quality 90 — and the returned
envelope has status `pending`. -/
theorem c9_empty_operations_get_default_resize
    (req : CreateJobRequest) (jobID : String) (now : Nat)
    (hurl : req.imageURL ≠ "")
    (hops : req.operations = []) :
    handleCreateJob req jobID now =
      .created { id := jobID, status := StatusPending, imageURL := req.imageURL,
                 operations := [{ type := OpResize, width := 800, height := 600,
                                  format := FormatJPEG, quality := 90,
                                  watermark := "", outputKey := "" }],
                 createdAt := now, completedAt := none, results := [], error := "" } := by
  unfold handleCreateJob
  rw [if_neg hurl]
  simp [hops, defaultResizeOperation]

/-- Witness for `c9_empty_operations_get_default_resize`. -/
theorem c9_witness :
    handleCreateJob { imageURL := "http://example.com/cat.png", operations := [] }
        "job-1" 0 =
      .created { id := "job-1", status := StatusPending,
                 imageURL := "http://example.com/cat.png",
                 operations := [{ type := OpResize, width := 800, height := 600,
                                  format := FormatJPEG, quality := 90,
                                  watermark := "", outputKey := "" }],
                 createdAt := 0, completedAt := none, results := [], error := "" } :=
  c9_empty_operations_get_default_resize
    { imageURL := "http://example.com/cat.png", operations := [] } "job-1" 0
    (by decide) rfl

/-- C10: for every successful operation, the recorded `output_url` is the
recorded `output_key` with the derived file extension appended, the one
object stored by the operation is stored under that extended key, and the
`output_key` alone differs from the stored object's key (the extension is
never empty). -/
theorem c10_output_url_is_extended_stored_key
    (env : Env) (img : Raster) (op : ImageOperation) (jobID : String)
    (ctr : Nat) (r : ProcessedImage) (ups : List Upload) (ctr' : Nat)
    (h : processOperation env img op jobID ctr = (.ok r, ups, ctr')) :
    r.outputURL = r.outputKey ++ fileExt r.format ∧
    ups.map Upload.objectKey = [r.outputURL] ∧
    r.outputKey ≠ r.outputURL := by
  obtain ⟨-, -, hf, -, -, hurl, hups⟩ := processOperation_ok_fields h
  have hfe : fileExt r.format = fileExt op.format := by rw [hf]
  refine ⟨by rw [hurl, hfe], ?_, ?_⟩
  · rw [hups]
    simp [hurl]
  · rw [hurl]
    exact self_ne_append_right (fileExt_length_pos op.format)

/-- Witness for `c10_output_url_is_extended_stored_key`: the PNG format
conversion with explicit key `custom/key` stores `custom/key.png` and
records it as the `output_url`. -/
theorem c10_witness :
    ({ operation := explicitKeyOp, outputURL := "custom/key.png",
       outputKey := "custom/key", size := 0, width := 400, height := 200,
       format := "png" } : ProcessedImage).outputURL =
        ({ operation := explicitKeyOp, outputURL := "custom/key.png",
           outputKey := "custom/key", size := 0, width := 400, height := 200,
           format := "png" } : ProcessedImage).outputKey ++ fileExt "png" ∧
    ([{ objectKey := "custom/key.png", contentType := "image/png",
        data := .pngData ⟨400, 200⟩ }] : List Upload).map Upload.objectKey =
        ["custom/key.png"] ∧
    ({ operation := explicitKeyOp, outputURL := "custom/key.png",
       outputKey := "custom/key", size := 0, width := 400, height := 200,
       format := "png" } : ProcessedImage).outputKey ≠ "custom/key.png" :=
  c10_output_url_is_extended_stored_key envAllOk ⟨400, 200⟩ explicitKeyOp
    "job-1" 0 _ _ 0 rfl
